import Mathlib

/-!
Verification development for the cpplatex expression-algebra header
(`latex.hpp`).  The C++ library is a collection of templated node classes;
each node stores owned copies of its operands and exposes
  * `solve()`  — numeric reduction (may throw `std::runtime_error`), and
  * `latex()`  — typeset rendering to a `std::string`.

Shallow embedding conventions used throughout this file:
  * every C++ class template becomes a Lean structure parametrised by the
    operand types;
  * a C++ member `solve()` that returns `R` or throws becomes a Lean
    function into `Except String R`, the error carrying the thrown message;
  * the SFINAE probe `can_solve<T>` becomes the type class `CanSolve`
    (and its compile-time boolean value becomes `CanSolveFlag`);
  * the two overloads of `latex::math::reduce` become the `HasReduce`
    instances: one derived from `CanSolve`, and one identity instance per
    terminal type (arithmetic primitive or opaque caller type);
  * `int` is modelled by `Int`; `double` by `ℚ` (all doubles appearing in
    the verified statements are exactly representable);
  * libm calls (`::sin`, `::log`, ...) are modelled by the classes `CSin`,
    `CLog`, standing for the corresponding C++ overload sets.
-/

deriving instance DecidableEq for Except

namespace latex

/-- `latex::oparen` (latex.hpp line 12). -/
def oparen : String := "\\left("

/-- `latex::cparen` (latex.hpp line 13). -/
def cparen : String := "\\right)"

namespace math

/-- Models the `can_solve<T>` capability (latex.hpp lines 578-580) together
with the result of calling `solve()`: a value of the return type or the
message of the thrown exception. -/
class CanSolve (α : Type) (ρ : outParam Type) where
  solve : α → Except String ρ

/-- The compile-time boolean `can_solve<T>::value` used by the SFINAE guards
of the global operators (latex.hpp lines 1315-1358). -/
class CanSolveFlag (α : Type) where
  flag : Bool

/-- `can_solve<T>::value` for a type `T`. -/
def canSolveB (α : Type) [CanSolveFlag α] : Bool := @CanSolveFlag.flag α _

/-- The dispatch performed by the two overloads of `latex::math::reduce`
(latex.hpp lines 582-590): types with a `solve()` member reduce through it,
terminal types (arithmetic primitives and opaque caller types) reduce to
themselves. -/
class HasReduce (α : Type) (ρ : outParam Type) where
  reduce : α → Except String ρ

export HasReduce (reduce)

/-- First overload of `reduce` (latex.hpp lines 582-583): enabled when
`can_solve<T>`, returns `val.solve()`. -/
instance instReduceOfSolve {α ρ : Type} [CanSolve α ρ] : HasReduce α ρ :=
  ⟨CanSolve.solve⟩

/-- Second overload of `reduce` (latex.hpp lines 585-590) at the arithmetic
primitive `int`: returns the value unchanged. -/
instance : HasReduce Int Int := ⟨fun x => .ok x⟩

/-- Second overload of `reduce` at the arithmetic primitive `double`
(modelled by `ℚ`): returns the value unchanged. -/
instance : HasReduce ℚ ℚ := ⟨fun x => .ok x⟩

instance : CanSolveFlag Int := ⟨false⟩
instance : CanSolveFlag ℚ := ⟨false⟩
instance : CanSolveFlag String := ⟨false⟩

/-- Models streaming a value into a `std::ostream` (`ss << val`); every node
streams as its `latex()` rendering, terminals use the iostream formatting. -/
class Streamable (α : Type) where
  out : α → String

instance : Streamable Int := ⟨toString⟩
instance : Streamable String := ⟨id⟩

/-- iostream default formatting of a `double`, modelled on `ℚ` for the
values used in this development (all of which are integral). -/
def ratStream (q : ℚ) : String :=
  if q.den = 1 then toString q.num else toString q.num ++ "/" ++ toString q.den

instance : Streamable ℚ := ⟨ratStream⟩

/-- `reduce(x)` as overload resolution determines it inside a `const` member
function such as `Root::latex` (latex.hpp line 907): `can_solve<const T>` is
false (no `const`-qualified `solve()`), so the identity overload applies. -/
def reduceConst {α : Type} (x : α) : α := x

/-- The caller-defined opaque arithmetic type of the repository's test-suite
(`CustomType` in test/main.cpp lines 308-336): it wraps a value and defines
the four arithmetic operators against any other operand type, and has no
`solve()` member. -/
structure CustomType (T : Type) where
  val : T

/-- `CustomType::operator+` (test/main.cpp lines 317-321). -/
instance {T U : Type} [HAdd T U T] : HAdd (CustomType T) U (CustomType T) :=
  ⟨fun c other => ⟨c.val + other⟩⟩

/-- `CustomType::operator-` (test/main.cpp lines 322-326). -/
instance {T U : Type} [HSub T U T] : HSub (CustomType T) U (CustomType T) :=
  ⟨fun c other => ⟨c.val - other⟩⟩

/-- `CustomType::operator/` (test/main.cpp lines 327-331). -/
instance {T U : Type} [HDiv T U T] : HDiv (CustomType T) U (CustomType T) :=
  ⟨fun c other => ⟨c.val / other⟩⟩

/-- `CustomType::operator*` (test/main.cpp lines 332-336). -/
instance {T U : Type} [HMul T U T] : HMul (CustomType T) U (CustomType T) :=
  ⟨fun c other => ⟨c.val * other⟩⟩

/-- `CustomType` has no `solve()`: terminal overload of `reduce` applies. -/
instance {T : Type} : HasReduce (CustomType T) (CustomType T) := ⟨fun x => .ok x⟩

instance {T : Type} : CanSolveFlag (CustomType T) := ⟨false⟩

/-- Models the `::sin` overload set used by `Sin::solve`, `Cos::solve` and
`Tan::solve` (latex.hpp lines 1213, 1247, 1281). -/
class CSin (α : Type) (ρ : outParam Type) where
  csin : α → ρ

/-- Models the `::log` overload set used by `Log::solve` and
`NaturalLog::solve` (latex.hpp lines 941, 975). -/
class CLog (α : Type) (ρ : outParam Type) where
  clog : α → ρ

/-- An opaque caller-defined arithmetic operand type: the free term algebra
over the operators and libm functions the nodes invoke.  Instantiating the
node templates at this type records, in the result, exactly which functions
a `solve()` call composes. -/
inductive CExpr : Type where
  | lit : Int → CExpr
  | sin : CExpr → CExpr
  | cos : CExpr → CExpr
  | tan : CExpr → CExpr
  | log : CExpr → CExpr
  | add : CExpr → CExpr → CExpr
  | div : CExpr → CExpr → CExpr
  deriving DecidableEq

instance : CSin CExpr CExpr := ⟨CExpr.sin⟩
instance : CLog CExpr CExpr := ⟨CExpr.log⟩
instance : HAdd CExpr CExpr CExpr := ⟨CExpr.add⟩
instance : HDiv CExpr CExpr CExpr := ⟨CExpr.div⟩

/-- `CExpr` has no `solve()`: terminal overload of `reduce` applies. -/
instance : HasReduce CExpr CExpr := ⟨fun x => .ok x⟩

instance : CanSolveFlag CExpr := ⟨false⟩

/-- `latex::math::Number` (latex.hpp lines 609-638). -/
structure Number (T : Type) where
  val : T

/-- `Number::solve` (latex.hpp line 619): `return reduce(val);`. -/
def Number.solve {T ρ : Type} [HasReduce T ρ] (n : Number T) : Except String ρ :=
  reduce n.val

instance {T ρ : Type} [HasReduce T ρ] : CanSolve (Number T) ρ := ⟨Number.solve⟩

instance {T : Type} : CanSolveFlag (Number T) := ⟨true⟩

/-- `Number::latex` (latex.hpp lines 621-625): `ss << val`. -/
def Number.latex {T : Type} [Streamable T] (n : Number T) : String :=
  Streamable.out n.val

instance {T : Type} [Streamable T] : Streamable (Number T) := ⟨Number.latex⟩

/-- `latex::math::Paren` (latex.hpp lines 646-662). -/
structure Paren (T : Type) where
  enclosed : T

/-- `Paren::solve` (latex.hpp line 653): `return reduce(enclosed);`. -/
def Paren.solve {T ρ : Type} [HasReduce T ρ] (p : Paren T) : Except String ρ :=
  reduce p.enclosed

instance {T ρ : Type} [HasReduce T ρ] : CanSolve (Paren T) ρ := ⟨Paren.solve⟩

instance {T : Type} : CanSolveFlag (Paren T) := ⟨true⟩

/-- `Paren::latex` (latex.hpp lines 655-659). -/
def Paren.latex {T : Type} [Streamable T] (p : Paren T) : String :=
  oparen ++ Streamable.out p.enclosed ++ cparen

instance {T : Type} [Streamable T] : Streamable (Paren T) := ⟨Paren.latex⟩

/-- `latex::math::Fraction` (latex.hpp lines 673-705). -/
structure Fraction (Numerator Denominator : Type) where
  num : Numerator
  den : Denominator

/-- `Fraction::solve` (latex.hpp lines 686-688):
`return reduce(num) / reduce(den);`. -/
def Fraction.solve {N D ρn ρd γ : Type} [HasReduce N ρn] [HasReduce D ρd]
    [HDiv ρn ρd γ] (f : Fraction N D) : Except String γ := do
  let n ← reduce f.num
  let d ← reduce f.den
  pure (n / d)

instance {N D ρn ρd γ : Type} [HasReduce N ρn] [HasReduce D ρd] [HDiv ρn ρd γ] :
    CanSolve (Fraction N D) γ := ⟨Fraction.solve⟩

instance {N D : Type} : CanSolveFlag (Fraction N D) := ⟨true⟩

/-- `Fraction::latex` (latex.hpp lines 690-694). -/
def Fraction.latex {N D : Type} [Streamable N] [Streamable D]
    (f : Fraction N D) : String :=
  "\\frac\x7b" ++ Streamable.out f.num ++ "\x7d\x7b" ++ Streamable.out f.den ++ "\x7d"

instance {N D : Type} [Streamable N] [Streamable D] : Streamable (Fraction N D) :=
  ⟨Fraction.latex⟩

/-- `latex::math::Multiplication` (latex.hpp lines 711-740). -/
structure Multiplication (LHS RHS : Type) where
  lhs : LHS
  rhs : RHS

/-- `Multiplication::solve` (latex.hpp line 724):
`return reduce(lhs) * reduce(rhs);`. -/
def Multiplication.solve {L R ρl ρr γ : Type} [HasReduce L ρl] [HasReduce R ρr]
    [HMul ρl ρr γ] (m : Multiplication L R) : Except String γ := do
  let a ← reduce m.lhs
  let b ← reduce m.rhs
  pure (a * b)

instance {L R ρl ρr γ : Type} [HasReduce L ρl] [HasReduce R ρr] [HMul ρl ρr γ] :
    CanSolve (Multiplication L R) γ := ⟨Multiplication.solve⟩

instance {L R : Type} : CanSolveFlag (Multiplication L R) := ⟨true⟩

/-- `latex::math::Addition` (latex.hpp lines 745-774). -/
structure Addition (LHS RHS : Type) where
  lhs : LHS
  rhs : RHS

/-- `Addition::solve` (latex.hpp line 758):
`return reduce(lhs) + reduce(rhs);`. -/
def Addition.solve {L R ρl ρr γ : Type} [HasReduce L ρl] [HasReduce R ρr]
    [HAdd ρl ρr γ] (a : Addition L R) : Except String γ := do
  let x ← reduce a.lhs
  let y ← reduce a.rhs
  pure (x + y)

instance {L R ρl ρr γ : Type} [HasReduce L ρl] [HasReduce R ρr] [HAdd ρl ρr γ] :
    CanSolve (Addition L R) γ := ⟨Addition.solve⟩

instance {L R : Type} : CanSolveFlag (Addition L R) := ⟨true⟩

/-- `Addition::latex` (latex.hpp lines 759-763): `ss << lhs << " + " << rhs`. -/
def Addition.latex {L R : Type} [Streamable L] [Streamable R]
    (a : Addition L R) : String :=
  Streamable.out a.lhs ++ " + " ++ Streamable.out a.rhs

instance {L R : Type} [Streamable L] [Streamable R] : Streamable (Addition L R) :=
  ⟨Addition.latex⟩

/-- `latex::math::Subtraction` (latex.hpp lines 779-808). -/
structure Subtraction (LHS RHS : Type) where
  lhs : LHS
  rhs : RHS

/-- `Subtraction::solve` (latex.hpp line 792):
`return reduce(lhs) - reduce(rhs);`. -/
def Subtraction.solve {L R ρl ρr γ : Type} [HasReduce L ρl] [HasReduce R ρr]
    [HSub ρl ρr γ] (s : Subtraction L R) : Except String γ := do
  let x ← reduce s.lhs
  let y ← reduce s.rhs
  pure (x - y)

instance {L R ρl ρr γ : Type} [HasReduce L ρl] [HasReduce R ρr] [HSub ρl ρr γ] :
    CanSolve (Subtraction L R) γ := ⟨Subtraction.solve⟩

instance {L R : Type} : CanSolveFlag (Subtraction L R) := ⟨true⟩

/-- `latex::math::Power` (latex.hpp lines 815-845). -/
structure Power (LHS RHS : Type) where
  lhs : LHS
  rhs : RHS

/-- `Power::latex` (latex.hpp lines 830-834):
`ss << "{" << oparen << lhs << cparen << "}^{" << rhs << "}"`. -/
def Power.latex {L R : Type} [Streamable L] [Streamable R] (p : Power L R) : String :=
  "\x7b" ++ oparen ++ Streamable.out p.lhs ++ cparen ++ "\x7d^\x7b" ++
    Streamable.out p.rhs ++ "\x7d"

instance {L R : Type} [Streamable L] [Streamable R] : Streamable (Power L R) :=
  ⟨Power.latex⟩

instance {L R : Type} : CanSolveFlag (Power L R) := ⟨true⟩

/-- `latex::math::Root` (latex.hpp lines 888-921). -/
structure Root (Val Pow : Type) where
  val : Val
  base : Pow

/-- `Root::latex` (latex.hpp lines 904-910): appends `"\sqrt"`, then the
bracketed index `"[base]"` when `reduce(base) != 2` (identity overload of
`reduce` in this `const` context), then `"{val}"`. -/
def Root.latex {V P : Type} [Streamable V] [Streamable P] [DecidableEq P]
    [OfNat P 2] (r : Root V P) : String :=
  "\\sqrt" ++
    (if reduceConst r.base ≠ 2 then "[" ++ Streamable.out r.base ++ "]" else "") ++
    "\x7b" ++ Streamable.out r.val ++ "\x7d"

instance {V P : Type} : CanSolveFlag (Root V P) := ⟨true⟩

/-- `latex::math::Log` (latex.hpp lines 928-957). -/
structure Log (Val Base : Type) where
  val : Val
  base : Base

/-- `Log::solve` (latex.hpp line 941):
`return ::log(reduce(val)) / ::log(base);`. -/
def Log.solve {V B ρv ℓv ℓb γ : Type} [HasReduce V ρv]
    [CLog ρv ℓv] [CLog B ℓb] [HDiv ℓv ℓb γ] (l : Log V B) : Except String γ := do
  let v ← reduce l.val
  pure (CLog.clog v / CLog.clog l.base)

instance {L B : Type} : CanSolveFlag (Log L B) := ⟨true⟩

/-- `latex::math::Sin` (latex.hpp lines 1202-1229). -/
structure Sin (Val : Type) where
  val : Val

/-- `Sin::solve` (latex.hpp line 1213): `return ::sin(reduce(val));`. -/
def Sin.solve {V ρ σ : Type} [HasReduce V ρ] [CSin ρ σ] (s : Sin V) :
    Except String σ := do
  let v ← reduce s.val
  pure (CSin.csin v)

instance {V ρ σ : Type} [HasReduce V ρ] [CSin ρ σ] : CanSolve (Sin V) σ :=
  ⟨Sin.solve⟩

instance {V : Type} : CanSolveFlag (Sin V) := ⟨true⟩

/-- `latex::math::Cos` (latex.hpp lines 1236-1263). -/
structure Cos (Val : Type) where
  val : Val

/-- `Cos::solve` (latex.hpp line 1247): the source reads
`return ::sin(reduce(val));` — it calls `::sin`, not `::cos`. -/
def Cos.solve {V ρ σ : Type} [HasReduce V ρ] [CSin ρ σ] (c : Cos V) :
    Except String σ := do
  let v ← reduce c.val
  pure (CSin.csin v)

instance {V ρ σ : Type} [HasReduce V ρ] [CSin ρ σ] : CanSolve (Cos V) σ :=
  ⟨Cos.solve⟩

instance {V : Type} : CanSolveFlag (Cos V) := ⟨true⟩

/-- `latex::math::Tan` (latex.hpp lines 1270-1297). -/
structure Tan (Val : Type) where
  val : Val

/-- `Tan::solve` (latex.hpp line 1281): the source reads
`return ::sin(reduce(val));` — it calls `::sin`, not `::tan`. -/
def Tan.solve {V ρ σ : Type} [HasReduce V ρ] [CSin ρ σ] (t : Tan V) :
    Except String σ := do
  let v ← reduce t.val
  pure (CSin.csin v)

instance {V ρ σ : Type} [HasReduce V ρ] [CSin ρ σ] : CanSolve (Tan V) σ :=
  ⟨Tan.solve⟩

instance {V : Type} : CanSolveFlag (Tan V) := ⟨true⟩

/-- `latex::math::Variable` (latex.hpp lines 1108-1131). -/
structure Variable (T : Type) where
  name : T

/-- `Variable::solve` (latex.hpp lines 1115-1119): always throws
`std::runtime_error` with a message naming the variable. -/
def Variable.solve {T : Type} [Streamable T] (v : Variable T) :
    Except String Unit :=
  .error ("attempted to solve an equation containing variable \x27" ++
    Streamable.out v.name ++ "\x27\n")

instance {T : Type} [Streamable T] : CanSolve (Variable T) Unit :=
  ⟨Variable.solve⟩

instance {T : Type} : CanSolveFlag (Variable T) := ⟨true⟩

/-- `Variable::latex` (latex.hpp lines 1121-1125). -/
def Variable.latex {T : Type} [Streamable T] (v : Variable T) : String :=
  Streamable.out v.name

instance {T : Type} [Streamable T] : Streamable (Variable T) := ⟨Variable.latex⟩

/-- `latex::math::SubscriptedVariable` (latex.hpp lines 1174-1198). -/
structure SubscriptedVariable (Upper Lower : Type) where
  upper : Upper
  lower : Lower

/-- `SubscriptedVariable::solve` (latex.hpp lines 1182-1186): always throws
`std::runtime_error` with a message naming the variable as `upper_lower`. -/
def SubscriptedVariable.solve {U L : Type} [Streamable U] [Streamable L]
    (v : SubscriptedVariable U L) : Except String Unit :=
  .error ("attempted to solve an equation containing variable \x27" ++
    Streamable.out v.upper ++ "_" ++ Streamable.out v.lower ++ "\x27\n")

instance {U L : Type} [Streamable U] [Streamable L] :
    CanSolve (SubscriptedVariable U L) Unit := ⟨SubscriptedVariable.solve⟩

instance {U L : Type} : CanSolveFlag (SubscriptedVariable U L) := ⟨true⟩

/-- `latex::math::Equation` (latex.hpp lines 1002-1049); `label` is the
optional label, empty when the two-argument constructor is used. -/
structure Equation (LHS RHS : Type) where
  lhs : LHS
  rhs : RHS
  label : String

/-- The two-argument `Equation` constructor as used by `make_eqn`
(latex.hpp lines 1016, 1051-1052): the label is default-constructed empty. -/
def make_eqn {L R : Type} (lhs : L) (rhs : R) : Equation L R := ⟨lhs, rhs, ""⟩

/-- `Equation::solve` (latex.hpp line 1033): `return rhs.solve();` — the
left-hand side is never touched. -/
def Equation.solve {L R ρ : Type} [CanSolve R ρ] (e : Equation L R) :
    Except String ρ :=
  CanSolve.solve e.rhs

instance {L R ρ : Type} [CanSolve R ρ] : CanSolve (Equation L R) ρ :=
  ⟨Equation.solve⟩

instance {L R : Type} : CanSolveFlag (Equation L R) := ⟨true⟩

end math

end latex

--
-- global operators for math (latex.hpp lines 1315-1358)
--

open latex.math in
/-- The global `operator+` template (latex.hpp lines 1315-1323): guarded by
`enable_if<can_solve<T>::value || can_solve<L>::value>`, it constructs an
`Addition` node from its two operands. -/
def opAdd {T L : Type} [CanSolveFlag T] [CanSolveFlag L] (lhs : T) (rhs : L)
    (_hguard : (canSolveB T || canSolveB L) = true) : Addition T L :=
  Addition.mk lhs rhs

open latex.math in
/-- The global `operator-` template (latex.hpp lines 1327-1335). -/
def opSub {T L : Type} [CanSolveFlag T] [CanSolveFlag L] (lhs : T) (rhs : L)
    (_hguard : (canSolveB T || canSolveB L) = true) : Subtraction T L :=
  Subtraction.mk lhs rhs

open latex.math in
/-- The global `operator*` template (latex.hpp lines 1339-1347). -/
def opMul {T L : Type} [CanSolveFlag T] [CanSolveFlag L] (lhs : T) (rhs : L)
    (_hguard : (canSolveB T || canSolveB L) = true) : Multiplication T L :=
  Multiplication.mk lhs rhs

open latex.math in
/-- The global `operator/` template (latex.hpp lines 1350-1358). -/
def opDiv {T L : Type} [CanSolveFlag T] [CanSolveFlag L] (lhs : T) (rhs : L)
    (_hguard : (canSolveB T || canSolveB L) = true) : Fraction T L :=
  Fraction.mk lhs rhs

namespace latex

namespace doc

/-- `latex::doc::List::EntryType` (latex.hpp lines 214-217): the recorded
insertion-order tag. -/
inductive EntryType : Type where
  | str : EntryType
  | sublist : EntryType
  deriving DecidableEq

/-- `latex::doc::List` (latex.hpp lines 211-304): the recorded ordering tags
together with the two parallel element sequences.  (Named `DocList` because
`List` is taken by the Lean prelude; the list style `Ordered`/`Unordered`
only contributes the `open`/`close` strings, which are passed to `build`.) -/
inductive DocList : Type where
  | mk : List EntryType → List String → List DocList → DocList

/-- The `ordering` field. -/
def DocList.ordering : DocList → List EntryType
  | ⟨o, _, _⟩ => o

/-- The `items` field. -/
def DocList.items : DocList → List String
  | ⟨_, i, _⟩ => i

/-- The `sublists` field. -/
def DocList.sublists : DocList → List DocList
  | ⟨_, _, s⟩ => s

/-- `List::add` (latex.hpp lines 251-254): push the item and record a
`String` ordering tag. -/
def DocList.add : DocList → String → DocList
  | ⟨o, i, s⟩, str => ⟨o ++ [.str], i ++ [str], s⟩

/-- `List::add_sublist` (latex.hpp lines 256-259): push the sublist and
record a `Sublist` ordering tag. -/
def DocList.add_sublist : DocList → DocList → DocList
  | ⟨o, i, s⟩, sub => ⟨o ++ [.sublist], i, s ++ [sub]⟩

/-- `List::operator<<` for strings and for any stringifiable/renderable
value (latex.hpp lines 228-229, 234-249): every such overload forwards the
(rendered) string to `add`. -/
def DocList.insertStr (l : DocList) (s : String) : DocList := l.add s

/-- `List::operator<<` for sublists (latex.hpp lines 231-232): forwards to
`add_sublist`. -/
def DocList.insertSub (l : DocList) (sub : DocList) : DocList :=
  l.add_sublist sub

/-- The tab run emitted by `List::build` (latex.hpp lines 277-278):
`for (i = 1; i < depth; ++i) prefix << "\t"`. -/
def tabs (depth : Nat) : String := String.mk (List.replicate (depth - 1) '\t')

mutual

/-- `List::build` (latex.hpp lines 273-303).  Walks the recorded `ordering`,
consuming one item per `String` tag and one sublist per `Sublist` tag; when
a tag finds its sequence exhausted the C++ throws `std::runtime_error`,
modelled as `Except.error` with the thrown message.  `styleOpen` and
`styleClose` are `Style::open`/`Style::close` of the list style template
argument. -/
def DocList.build (l : DocList) (styleOpen styleClose : String) (depth : Nat) :
    Except String String :=
  match l with
  | ⟨ord, its, subs⟩ => do
    let body ← buildEntries ord its subs styleOpen styleClose depth
    pure (tabs depth ++ styleOpen ++ "\n" ++ body ++ tabs depth ++ styleClose ++ "\n")

/-- The entry loop of `List::build` (latex.hpp lines 281-301). -/
def buildEntries : List EntryType → List String → List DocList → String →
    String → Nat → Except String String
  | [], _, _, _, _, _ => pure ""
  | .str :: rest, item :: its, subs, so, sc, depth => do
    let r ← buildEntries rest its subs so sc depth
    pure (tabs depth ++ "\t" ++ "\\item " ++ item ++ "\n" ++ r)
  | .str :: _, [], _, _, _, _ =>
    .error "attempted to output a list item, but no items remaining."
  | .sublist :: rest, its, sub :: subs, so, sc, depth => do
    let inner ← sub.build so sc (depth + 1)
    let r ← buildEntries rest its subs so sc depth
    pure (inner ++ r)
  | .sublist :: _, _, [], _, _, _ =>
    .error "attempted to output a sublist item, but no sublists remaining."

end

/-- `List::to_string` (latex.hpp lines 265-269): `build` at depth 1. -/
def DocList.to_string (l : DocList) (styleOpen styleClose : String) :
    Except String String :=
  l.build styleOpen styleClose 1

/-- The lists constructible through the public insertion interface
(`add`, `add_sublist` and the `operator<<` overloads), starting from a
default-constructed (empty) `List`. -/
inductive Built : DocList → Prop where
  | nil : Built ⟨[], [], []⟩
  | add : ∀ {l : DocList} (s : String), Built l → Built (l.add s)
  | sub : ∀ {l m : DocList}, Built l → Built m → Built (l.add_sublist m)

/-- The structural invariant behind `Built`: tag counts match the stored
sequences, recursively in every sublist. -/
inductive Balanced : DocList → Prop where
  | mk : ∀ {ord : List EntryType} {its : List String} {subs : List DocList},
      ord.countP (fun e => e == .str) = its.length →
      ord.countP (fun e => e == .sublist) = subs.length →
      (∀ s ∈ subs, Balanced s) →
      Balanced ⟨ord, its, subs⟩

end doc

end latex

--
-- theorems
--

open latex latex.math latex.doc

theorem balanced_nil : Balanced ⟨[], [], []⟩ := Balanced.mk rfl rfl (by simp)

theorem balanced_add {l : DocList} (s : String) (h : Balanced l) :
    Balanced (l.add s) := by
  obtain ⟨o, i, subs⟩ := l
  cases h with
  | mk h1 h2 hs =>
    exact Balanced.mk (by simp [List.countP_append, List.countP_cons, h1])
      (by simp [List.countP_append, List.countP_cons, h2]) hs

theorem balanced_add_sublist {l m : DocList} (h : Balanced l) (hm : Balanced m) :
    Balanced (l.add_sublist m) := by
  obtain ⟨o, i, subs⟩ := l
  cases h with
  | mk h1 h2 hs =>
    refine Balanced.mk (by simp [List.countP_append, List.countP_cons, h1])
      (by simp [List.countP_append, List.countP_cons, h2]) ?_
    intro s hsm
    rcases List.mem_append.1 hsm with hmem | hmem
    · exact hs s hmem
    · simp at hmem
      exact hmem ▸ hm

theorem built_balanced {l : DocList} (h : Built l) : Balanced l := by
  induction h with
  | nil => exact balanced_nil
  | add s _ ih => exact balanced_add s ih
  | sub _ _ ihl ihm => exact balanced_add_sublist ihl ihm

theorem buildEntries_ok (so sc : String) :
    ∀ (ord : List EntryType) (its : List String) (subs : List DocList) (depth : Nat),
    ord.countP (fun e => e == .str) = its.length →
    ord.countP (fun e => e == .sublist) = subs.length →
    (∀ s ∈ subs, ∀ d, ∃ res, s.build so sc d = .ok res) →
    ∃ res, buildEntries ord its subs so sc depth = .ok res := by
  intro ord
  induction ord with
  | nil =>
    intro its subs depth _ _ _
    simp only [buildEntries]
    exact ⟨_, rfl⟩
  | cons e rest ih =>
    intro its subs depth h1 h2 hs
    cases e with
    | str =>
      cases its with
      | nil => simp [List.countP_cons] at h1
      | cons item its' =>
        obtain ⟨r, hr⟩ := ih its' subs depth (by simpa [List.countP_cons] using h1)
          (by simpa [List.countP_cons] using h2) hs
        simp only [buildEntries, hr]
        exact ⟨_, rfl⟩
    | sublist =>
      cases subs with
      | nil => simp [List.countP_cons] at h2
      | cons sub subs' =>
        obtain ⟨inner, hinner⟩ := hs sub (by simp) (depth + 1)
        obtain ⟨r, hr⟩ := ih its subs' depth (by simpa [List.countP_cons] using h1)
          (by simpa [List.countP_cons] using h2)
          (fun s hm d => hs s (by simp [hm]) d)
        simp only [buildEntries, hinner, hr]
        exact ⟨_, rfl⟩

theorem build_ok (so sc : String) : ∀ {l : DocList}, Balanced l →
    ∀ depth, ∃ res, l.build so sc depth = .ok res := by
  intro l hb
  induction hb with
  | mk h1 h2 _ ih =>
    intro depth
    obtain ⟨body, hbody⟩ := buildEntries_ok so sc _ _ _ depth h1 h2 ih
    simp only [DocList.build, hbody]
    exact ⟨_, rfl⟩

theorem root_latex_ne_of_base_ne_two (v k : Int) (hk : k ≠ 2) :
    (Root.mk v k).latex ≠ "\\sqrt\x7b" ++ toString v ++ "\x7d" := by
  intro h
  have hl := congrArg String.length h
  simp [Root.latex, reduceConst, hk, String.length_append, Streamable.out] at hl
  rw [show "\\sqrt".length = 5 from rfl, show "[".length = 1 from rfl,
    show "]".length = 1 from rfl, show "\x7b".length = 1 from rfl,
    show "\\sqrt\x7b".length = 6 from rfl] at hl
  omega

/-- C1: `reduce(x)` returns `x.solve()` exactly when `x`'s type exposes a
`solve` capability (and arithmetic primitives never do), and returns `x`
unchanged on the arithmetic primitives `int` and `double` and on opaque
caller-defined arithmetic types without a `solve` method; an `Addition` of
such an opaque type and a native integer solves by delegating to the opaque
type's own `+` operator. -/
theorem reduce_dispatch_protocol :
    (∀ x : Int, reduce x = Except.ok x) ∧
    (∀ x : ℚ, reduce x = Except.ok x) ∧
    (∀ x : CustomType Int, reduce x = Except.ok x) ∧
    (∀ n : Number Int, reduce n = n.solve) ∧
    (∀ v : Variable String, reduce v = v.solve) ∧
    (∀ (c : CustomType Int) (i : Int),
      (Addition.mk c i).solve = Except.ok (CustomType.mk (c.val + i))) :=
  ⟨fun _ => rfl, fun _ => rfl, fun _ => rfl, fun _ => rfl, fun _ => rfl,
    fun _ _ => rfl⟩

/-- C2 (code bug): `Sin::solve` applies `::sin` to the reduced operand as
specified, but `Cos::solve` (latex.hpp line 1247) and `Tan::solve`
(latex.hpp line 1281) also call `::sin` — not `::cos`/`::tan` — so their
reductions diverge from the cosine/tangent the claim (and the nodes' own
`\cos`/`\tan` renderings) require. -/
theorem trig_solve_calls_sin :
    (∀ v : CExpr, (Sin.mk v).solve = Except.ok (CExpr.sin v)) ∧
    (∀ v : CExpr, (Cos.mk v).solve = Except.ok (CExpr.sin v)) ∧
    (∀ v : CExpr, (Tan.mk v).solve = Except.ok (CExpr.sin v)) ∧
    ((Cos.mk (CExpr.lit 0)).solve ≠ Except.ok (CExpr.cos (CExpr.lit 0))) ∧
    ((Tan.mk (CExpr.lit 0)).solve ≠ Except.ok (CExpr.tan (CExpr.lit 0))) :=
  ⟨fun _ => rfl, fun _ => rfl, fun _ => rfl, by decide, by decide⟩

/-- C3: `Fraction::solve` divides with the operand types' native division:
over `int` operands `Fraction(1,2)` solves to exactly `0`, over floating
operands to exactly `0.5`. -/
theorem fraction_native_division_semantics :
    (Fraction.mk (1 : Int) (2 : Int)).solve = Except.ok 0 ∧
    (Fraction.mk (1 : ℚ) (2 : ℚ)).solve = Except.ok 0.5 := by
  constructor
  · decide
  · show Except.ok ((1 : ℚ) / 2) = Except.ok 0.5
    norm_num

/-- C4: `Variable::solve` and `SubscriptedVariable::solve` always fail with
an error whose message carries the symbolic name (`name`, respectively
`upper_lower`), never return a substituted value, and the failure propagates
unchanged through enclosing `Paren`, `Number` and `Equation` reductions. -/
theorem variable_solve_always_fails :
    (∀ name : String, (Variable.mk name).solve = Except.error
      ("attempted to solve an equation containing variable \x27" ++ name ++ "\x27\n")) ∧
    (∀ (name : String) (u : Unit), (Variable.mk name).solve ≠ Except.ok u) ∧
    (∀ up low : String, (SubscriptedVariable.mk up low).solve = Except.error
      ("attempted to solve an equation containing variable \x27" ++
        up ++ "_" ++ low ++ "\x27\n")) ∧
    (∀ name : String, (Paren.mk (Variable.mk name)).solve = (Variable.mk name).solve) ∧
    (∀ name : String, (Number.mk (Variable.mk name)).solve = (Variable.mk name).solve) ∧
    (∀ {L : Type} (x : L) (name : String),
      (make_eqn x (Paren.mk (Variable.mk name))).solve = (Variable.mk name).solve) := by
  refine ⟨fun _ => rfl, ?_, fun _ _ => rfl, fun _ => rfl, fun _ => rfl, ?_⟩
  · intro name u h
    exact Except.noConfusion h
  · intro L x name
    rfl

/-- C5: `Equation::solve` returns exactly `rhs.solve()` and never reduces
the left-hand side: `Equation(Variable("y"), Number(5))` solves to `5`, and
an equation's solve fails exactly when its right-hand side's solve fails. -/
theorem equation_solve_ignores_lhs :
    ((make_eqn (Variable.mk "y") (Number.mk (5 : Int))).solve = Except.ok 5) ∧
    (∀ {L R ρ : Type} [_inst : CanSolve R ρ] (e : Equation L R),
      e.solve = CanSolve.solve e.rhs) ∧
    (∀ {L R ρ : Type} [_inst : CanSolve R ρ] (e : Equation L R),
      ((∃ m, e.solve = Except.error m) ↔ (∃ m, CanSolve.solve e.rhs = Except.error m))) := by
  refine ⟨rfl, ?_, ?_⟩
  · intro L R ρ _inst e
    rfl
  · intro L R ρ _inst e
    exact Iff.rfl

/-- C6: `Log::solve` over numeric operands equals reducing each operand and
dividing the natural log of the reduced value by the natural log of the
reduced base; with a node as value, the value is genuinely reduced first. -/
theorem log_solve_reduces_operands :
    (∀ v b : CExpr, (Log.mk v b).solve =
      (do
        let rv ← reduce v
        let rb ← reduce b
        pure (CExpr.div (CExpr.log rv) (CExpr.log rb)) : Except String CExpr)) ∧
    (∀ v b : CExpr, (Log.mk (Number.mk v) b).solve =
      Except.ok (CExpr.div (CExpr.log v) (CExpr.log b))) :=
  ⟨fun _ _ => rfl, fun _ _ => rfl⟩

/-- C7: `Root::latex` omits the bracketed index token exactly when the
reduced index equals `2` numerically; `Root(9,3)` renders as
`\sqrt[3]{9}`, and a floating index `2.0` also omits the bracket. -/
theorem root_index_omission_iff_two :
    (∀ v k : Int, ((Root.mk v k).latex = "\\sqrt\x7b" ++ toString v ++ "\x7d" ↔
      reduceConst k = 2)) ∧
    ((Root.mk (9 : Int) (3 : Int)).latex = "\\sqrt[3]\x7b9\x7d") ∧
    ((Root.mk (9 : Int) ((2 : ℚ))).latex = "\\sqrt\x7b9\x7d") := by
  refine ⟨?_, by decide, by decide⟩
  intro v k
  constructor
  · intro h
    by_contra hk
    exact root_latex_ne_of_base_ne_two v k hk h
  · intro hk
    have hk2 : k = 2 := hk
    subst hk2
    simp [Root.latex, reduceConst, Streamable.out]

/-- C8 counterexample: `Power(1,2).render()` is not the plain-parenthesis
string `"{(1)}^{2}"` the claim states (the code wraps the base in
`\left(`/`\right)` delimiters). -/
theorem power_latex_counterexample :
    (Power.mk (1 : Int) (2 : Int)).latex ≠ "\x7b(1)\x7d^\x7b2\x7d" := by
  decide

/-- C8 (amended): `Power::latex` always parenthesizes its base with the
`\left(`/`\right)` delimiters regardless of the base's complexity:
`Power(1,2).render() = "{\left(1\right)}^{2}"`, and a compound base is
wrapped the same way. -/
theorem power_latex_amended :
    (∀ l r : Int, (Power.mk l r).latex =
      "\x7b" ++ oparen ++ toString l ++ cparen ++ "\x7d^\x7b" ++ toString r ++ "\x7d") ∧
    ((Power.mk (1 : Int) (2 : Int)).latex = "\x7b\\left(1\\right)\x7d^\x7b2\x7d") ∧
    ((Power.mk (Addition.mk (Number.mk (1 : Int)) (2 : Int)) (3 : Int)).latex =
      "\x7b\\left(1 + 2\\right)\x7d^\x7b3\x7d") := by
  refine ⟨fun _ _ => rfl, by decide, by decide⟩

/-- C9: the guarded global `+ - * /` overloads construct the corresponding
unevaluated node (`Addition`, `Subtraction`, `Multiplication`, `Fraction`)
storing both operands as given; the guard holds only when at least one side
is reduction-capable (it is false for `int`/`double`/opaque pairs, so
primitive arithmetic applies there); numeric results appear only on an
explicit reduction. -/
theorem operator_overloads_construct_nodes :
    (∀ {T L : Type} [instT : CanSolveFlag T] [instL : CanSolveFlag L]
      (a : T) (b : L) (h : (canSolveB T || canSolveB L) = true),
      opAdd a b h = Addition.mk a b) ∧
    (∀ {T L : Type} [instT : CanSolveFlag T] [instL : CanSolveFlag L]
      (a : T) (b : L) (h : (canSolveB T || canSolveB L) = true),
      opSub a b h = Subtraction.mk a b) ∧
    (∀ {T L : Type} [instT : CanSolveFlag T] [instL : CanSolveFlag L]
      (a : T) (b : L) (h : (canSolveB T || canSolveB L) = true),
      opMul a b h = Multiplication.mk a b) ∧
    (∀ {T L : Type} [instT : CanSolveFlag T] [instL : CanSolveFlag L]
      (a : T) (b : L) (h : (canSolveB T || canSolveB L) = true),
      opDiv a b h = Fraction.mk a b) ∧
    (canSolveB Int = false) ∧
    (canSolveB ℚ = false) ∧
    (canSolveB (CustomType Int) = false) ∧
    (canSolveB (Number Int) = true) ∧
    ((canSolveB Int || canSolveB Int) = false) ∧
    ((opAdd (Number.mk (2 : Int)) (3 : Int) (by decide)).solve = Except.ok 5) := by
  refine ⟨?_, ?_, ?_, ?_, rfl, rfl, rfl, rfl, rfl, by decide⟩ <;>
    · intro T L instT instL a b h
      rfl

/-- C10: a `doc::List` built exclusively through the public insertion
operations records exactly one ordering tag per stored item or sublist, so
the `String` tag count equals the item count and the `Sublist` tag count
equals the sublist count, and `build`/`to_string` always succeed — the
"no items remaining"/"no sublists remaining" errors are unreachable. -/
theorem list_insertion_keeps_tags_aligned (l : DocList) (hb : Built l) :
    l.ordering.countP (fun e => e == EntryType.str) = l.items.length ∧
    l.ordering.countP (fun e => e == EntryType.sublist) = l.sublists.length ∧
    (∀ styleOpen styleClose : String, ∀ depth : Nat,
      ∃ res, l.build styleOpen styleClose depth = Except.ok res) ∧
    (∀ styleOpen styleClose : String,
      ∃ res, l.to_string styleOpen styleClose = Except.ok res) := by
  have hbal := built_balanced hb
  obtain ⟨o, i, s⟩ := l
  cases hbal with
  | mk h1 h2 hs =>
    exact ⟨h1, h2, fun so sc depth => build_ok so sc (Balanced.mk h1 h2 hs) depth,
      fun so sc => build_ok so sc (Balanced.mk h1 h2 hs) 1⟩

/-- C10 witness: a concrete list with one item and one sublist, built by the
public interface, renders successfully. -/
theorem list_insertion_keeps_tags_aligned_witness :
    ∃ res, (((DocList.mk [] [] []).add "a").add_sublist
        ((DocList.mk [] [] []).add "b")).to_string
        "\\begin\x7bitemize\x7d" "\\end\x7bitemize\x7d" = Except.ok res :=
  (list_insertion_keeps_tags_aligned _
    (Built.sub (Built.add "a" Built.nil) (Built.add "b" Built.nil))).2.2.2 _ _
